import Mathlib

/-!
Verification of the session-validation / password-reset-token core of the
`starter-kit-2.1` repository, shallowly embedded in Lean.

The embedding follows the TypeScript sources:
  * `src/unnamed/part_000`  — server actions `requestPasswordReset`, `resetPassword`
  * `src/unnamed/part_007`  — `AuthService.requestPasswordReset`, `AuthService.resetPassword`
  * `src/lib/BaseService.ts` — `BaseService.paginate` (ILIKE search) and `read` (eq filter)
  * `src/utils/user-session-manager.ts` — `UserSessionManager`
  * `src/context/AuthContext.tsx`, `src/unnamed/part_010` — `AuthProvider` revocation watcher

The external record store is modelled as in-memory data (a list of records);
its reads and writes are total functions on that data.  Time is a `Nat`
timestamp.  Effects on the browser (toasts, timers, navigation) are modelled
as explicit state.
-/

namespace StarterKit

/-! ## Data model -/

/-- A row of the `password_resets` table (see the `PasswordReset` interface in
`src/unnamed/part_000` lines 179-185). -/
structure PasswordReset where
  id : Nat
  user_id : Nat
  email : String
  token : String
  expires_at : Nat
  used_at : Option Nat
deriving Repr, DecidableEq

/-- The fields of a `user_profile` / `users` record that the session logic
reads. -/
structure UserRecord where
  id : Nat
  is_active : Bool
deriving Repr, DecidableEq

/-! ## BaseService search semantics

`BaseService.paginate` (src/lib/BaseService.ts lines 648-654) turns a search
term into `field.ilike.%term%`: a PostgreSQL ILIKE pattern that matches when
the *stored field* contains the *search term* as a case-insensitive
substring.  `BaseService.read` with `filters: { field: value }` instead emits
`query.eq(field, value)`: exact equality. -/

/-- ASCII case-folding of one character (the fragment of ILIKE
case-insensitivity relevant to the hex token strings). -/
def lowerChar (c : Char) : Char :=
  if 65 ≤ c.toNat ∧ c.toNat ≤ 90 then Char.ofNat (c.toNat + 32) else c

/-- Whether the list `n` occurs at the head of the list `h`. -/
def headMatch : List Char → List Char → Bool
  | [], _ => true
  | _ :: _, [] => false
  | a :: as, b :: bs => a == b && headMatch as bs

/-- Whether the list `n` occurs contiguously anywhere inside the list `h`. -/
def occursIn : List Char → List Char → Bool
  | n, [] => n.isEmpty
  | n, c :: cs => headMatch n (c :: cs) || occursIn n cs

/-- ILIKE `%search%` applied to a stored field: case-insensitive substring
containment, as produced by the search branch of `BaseService.paginate`. -/
def ilikeContains (field search : String) : Bool :=
  occursIn (search.toList.map lowerChar) (field.toList.map lowerChar)

/-- Token lookup as performed by the server action `resetPassword` in
`src/unnamed/part_000` lines 188-194: it calls `baseService.paginate` with
`search: token, searchFields: ["token"]`, so a stored row matches when its
`token` field ILIKE-contains the supplied string. -/
def tokenRowMatches_action (stored supplied : String) : Bool :=
  ilikeContains stored supplied

/-- Token lookup as performed by `AuthService.resetPassword` in
`src/unnamed/part_007` lines 507-511: `baseService.read` with
`filters: { token: resetData.token }`, i.e. exact string equality. -/
def tokenRowMatches_service (stored supplied : String) : Bool :=
  stored == supplied

/-! ## Password-reset request

Both variants look up the user by email, generate a token, store it, and
dispatch an email.  The collaborator outcomes a run depends on are captured
by `ResetRequestEnv`; the result is the `{ success, error }` shape the caller
sees. -/

/-- Collaborator outcomes a `requestPasswordReset` run can encounter. -/
structure ResetRequestEnv where
  /-- The user lookup by email succeeded and found at least one row. -/
  userFound : Bool
  /-- The insert into `password_resets` succeeded. -/
  storeOk : Bool
  /-- The email dispatch did not throw. -/
  emailOk : Bool
deriving Repr, DecidableEq

/-- The `{ success, error? }` shape both reset-request variants return. -/
structure ActionResult where
  success : Bool
  error : Option String
deriving Repr, DecidableEq

/-- The one generic failure message of the server action (src/unnamed/part_000
lines 161-166). -/
def genericResetFailure : String := "Something went wrong, so please try again later."

/-- The server action `requestPasswordReset` of `src/unnamed/part_000` lines
99-167.  For type "user" it queries the user by email; a failed or empty
lookup throws "User not found", a failed insert and a throwing email dispatch
also throw; every throw is caught and mapped to the one generic failure
message.  Type "developer" returns its own error; any other type leaves
`userId` null and so also throws "User not found" into the generic catch. -/
def requestPasswordReset_action (typ : String) (env : ResetRequestEnv) : ActionResult :=
  if typ = "user" then
    if !env.userFound then ⟨false, some genericResetFailure⟩
    else if !env.storeOk then ⟨false, some genericResetFailure⟩
    else if !env.emailOk then ⟨false, some genericResetFailure⟩
    else ⟨true, none⟩
  else if typ = "developer" then ⟨false, some "Developer reset not implemented"⟩
  else ⟨false, some genericResetFailure⟩

/-- `AuthService.requestPasswordReset` of `src/unnamed/part_007` lines
415-496.  For type "user", a failed or empty user lookup returns plain
success (the code comments: do not reveal whether the user exists); a failed
insert or throwing email dispatch is caught and mapped to the generic
`AUTH_RESET_REQUEST_ERROR`; other types get `AUTH_RESET_TYPE_ERROR`. -/
def requestPasswordReset_service (typ : String) (env : ResetRequestEnv) : ActionResult :=
  if typ = "user" then
    if !env.userFound then ⟨true, none⟩
    else if !env.storeOk then ⟨false, some "AUTH_RESET_REQUEST_ERROR"⟩
    else if !env.emailOk then ⟨false, some "AUTH_RESET_REQUEST_ERROR"⟩
    else ⟨true, none⟩
  else ⟨false, some "AUTH_RESET_TYPE_ERROR"⟩

/-! ## Password-reset redemption

`AuthService.resetPassword` (src/unnamed/part_007 lines 501-600; the server
action in part_000 lines 176-229 performs the same checks in the same order,
differing only in the error strings).  The record store is modelled as a list
of `PasswordReset` rows read and written by total functions; the identity
provider's password update either succeeds or fails (`idpOk`). -/

/-- The failure labels of redemption, named after the error codes of
`AuthService.resetPassword` (`AUTH_RESET_INVALID_TOKEN`,
`AUTH_RESET_TOKEN_USED`, `AUTH_RESET_TOKEN_EXPIRED`, `AUTH_RESET_TYPE_ERROR`,
`AUTH_RESET_UPDATE_ERROR`); the spec calls the first four `INVALID_TOKEN`,
`TOKEN_USED`, `TOKEN_EXPIRED`, `UNSUPPORTED_TYPE`. -/
inductive RedeemError where
  | INVALID_TOKEN
  | TOKEN_USED
  | TOKEN_EXPIRED
  | UNSUPPORTED_TYPE
  | UPDATE_ERROR
deriving Repr, DecidableEq

/-- Result of a redemption call. -/
inductive RedeemResult where
  | ok
  | err (e : RedeemError)
deriving Repr, DecidableEq

/-- The externally visible side effects a redemption run performs, in
execution order. -/
inductive RedeemEffect where
  /-- `auth.admin.updateUserById(user_id, { password })`. -/
  | updatePassword (userId : Nat) (newPassword : String)
  /-- `baseService.update("password_resets", id, { used_at })`. -/
  | markUsed (id : Nat) (time : Nat)
deriving Repr, DecidableEq

/-- Everything a redemption run produces: the caller-visible result, the
store after the run, and the ordered effect trace. -/
structure RedeemOutcome where
  result : RedeemResult
  store : List PasswordReset
  effects : List RedeemEffect
deriving Repr, DecidableEq

/-- The token lookup of `AuthService.resetPassword`: `baseService.read` with
an equality filter on `token` returns every matching row and the code uses
`data[0]`, hence the first row whose `token` equals the supplied string. -/
def findByToken (store : List PasswordReset) (t : String) : Option PasswordReset :=
  (store.filter (fun r => r.token = t)).head?

/-- How `baseService.update("password_resets", id, { used_at: now })` acts on
one row: the row with the given id gets `used_at` set, others are unchanged. -/
def markOne (id now : Nat) (r : PasswordReset) : PasswordReset :=
  if r.id = id then { r with used_at := some now } else r

/-- `baseService.update("password_resets", id, { used_at: now })` applied to
the whole table. -/
def markTokenUsed (store : List PasswordReset) (id now : Nat) : List PasswordReset :=
  store.map (markOne id now)

/-- `AuthService.resetPassword` (src/unnamed/part_007 lines 501-600): look up
the token row; fail `INVALID_TOKEN` when none matches; fail `TOKEN_USED` when
`used_at` is set; fail `TOKEN_EXPIRED` when `expires_at < now`; fail
`UNSUPPORTED_TYPE` for any type other than "user"; then update the password
through the identity provider and only mark the token used when that update
succeeded. -/
def resetPassword (store : List PasswordReset) (token newPassword typ : String)
    (now : Nat) (idpOk : Bool) : RedeemOutcome :=
  match findByToken store token with
  | none => ⟨.err .INVALID_TOKEN, store, []⟩
  | some r =>
    if r.used_at.isSome then ⟨.err .TOKEN_USED, store, []⟩
    else if r.expires_at < now then ⟨.err .TOKEN_EXPIRED, store, []⟩
    else if typ ≠ "user" then ⟨.err .UNSUPPORTED_TYPE, store, []⟩
    else if !idpOk then ⟨.err .UPDATE_ERROR, store, [.updatePassword r.user_id newPassword]⟩
    else ⟨.ok, markTokenUsed store r.id now,
          [.updatePassword r.user_id newPassword, .markUsed r.id now]⟩

/-! ## Session validator

`UserSessionManager.validateUserSession` (src/utils/user-session-manager.ts
lines 103-222) performs one `getUserById(userId)` call and classifies its
outcome.  The call can throw, return a `ServiceResponse`-shaped object
(`'success' in result`), or return a plain record / null (legacy shape); the
three possibilities are the constructors of `ReadOutcome`.  The function only
reads — it returns a verdict and touches no state. -/

/-- Outcome of the single `getUserById` read. -/
inductive ReadOutcome where
  /-- The read threw (network or service exception). -/
  | thrown
  /-- The read returned a `ServiceResponse` with this `success` flag and
  `data` payload. -/
  | svc (success : Bool) (data : Option UserRecord)
  /-- The read returned a plain record or null (legacy shape). -/
  | legacy (data : Option UserRecord)
deriving Repr, DecidableEq

/-- The `{ isValid, reason?, user? }` verdict of session validation. -/
structure ValidationVerdict where
  isValid : Bool
  reason : Option String
  user : Option UserRecord
deriving Repr, DecidableEq

/-- `UserSessionManager.validateUserSession`, as a function of the outcome of
its single read.  The reason strings are the code's literals. -/
def validateUserSession : ReadOutcome → ValidationVerdict
  | .thrown => ⟨false, some "Unable to verify your session", none⟩
  | .svc false _ => ⟨false, some "Session validation failed: service error", none⟩
  | .svc true none => ⟨false, some "Your account no longer exists", none⟩
  | .svc true (some u) =>
      if !u.is_active then ⟨false, some "Your account has been deactivated", none⟩
      else ⟨true, none, some u⟩
  | .legacy none => ⟨false, some "User account no longer exists", none⟩
  | .legacy (some u) =>
      if !u.is_active then ⟨false, some "Your account has been deactivated", none⟩
      else ⟨true, none, some u⟩

/-! ## Revocation watcher: change-notification handler

The `postgres_changes` callback of `setupRealTimeSubscription`
(src/context/AuthContext.tsx lines 341-382, identical logic in
src/unnamed/part_010 lines 376-431). -/

/-- A change notification on the session user's row. -/
inductive ChangeEvent where
  | delete
  | update (newRecord : UserRecord)
  | insert
deriving Repr, DecidableEq

/-- What the change handler does with one notification. -/
inductive WatcherAction where
  /-- Clear session state and run `UserSessionManager.handleUserLogout` with
  this reason. -/
  | forcedLogout (reason : String)
  /-- `UserSessionManager.handleUserUpdate`: replace the locally held profile
  with this record, no logout. -/
  | profileRefresh (u : UserRecord)
  /-- No state change (e.g. an INSERT event). -/
  | noop
deriving Repr, DecidableEq

/-- The change-notification callback: DELETE forces logout with reason
"Your account has been deleted"; an UPDATE whose new record has
`is_active` false forces logout with reason "Your account has been
deactivated"; any other UPDATE refreshes the profile; other events do
nothing. -/
def onUserTableChange : ChangeEvent → WatcherAction
  | .delete => .forcedLogout "Your account has been deleted"
  | .update u =>
      if !u.is_active then .forcedLogout "Your account has been deactivated"
      else .profileRefresh u
  | .insert => .noop

/-! ## Forced-logout procedure

`UserSessionManager.handleUserLogout` (src/utils/user-session-manager.ts
lines 11-65): show an error toast with the reason, then `setTimeout` a
redirect of `window.location.href` to the given path after 1000 ms.  The
browser-visible state is a list of toasts shown, the queue of scheduled
redirects, and the location once timers have fired.  There is no guard
against repeated invocation. -/

/-- Browser-visible state the logout procedure manipulates. -/
structure ClientUI where
  toasts : List String
  pendingNavs : List String
  location : Option String
deriving Repr, DecidableEq

/-- One invocation of `UserSessionManager.handleUserLogout reason path`:
appends a toast and schedules one redirect to `path`. -/
def handleUserLogout (reason path : String) (s : ClientUI) : ClientUI :=
  { s with toasts := s.toasts ++ [reason], pendingNavs := s.pendingNavs ++ [path] }

/-- All scheduled redirect timers fire, in order; each assigns
`window.location.href`, so the final location is the last scheduled path. -/
def fireTimers (s : ClientUI) : ClientUI :=
  { s with pendingNavs := [],
           location := match s.pendingNavs.getLast? with
                       | some p => some p
                       | none => s.location }

/-- `n` back-to-back invocations of the logout procedure with the same reason
and path. -/
def invokeLogoutN : Nat → String → String → ClientUI → ClientUI
  | 0, _, _, s => s
  | n + 1, reason, path, s => invokeLogoutN n reason path (handleUserLogout reason path s)

/-! ## Revocation watcher: reconnection machine and resource ledger

`setupRealTimeSubscription` in src/unnamed/part_010 lines 341-571 keeps
`reconnectAttempts` (incremented at the start of every setup call),
`MAX_RECONNECT_ATTEMPTS = 5` and `INITIAL_RECONNECT_DELAY = 1000`.  Every
setup call opens one channel subscription and — after the subscribe call —
unconditionally creates one new periodic-validation `setInterval`,
overwriting the `periodicValidation` variable.  On `CHANNEL_ERROR` with
`reconnectAttempts < 5` it schedules a reconnect timer with delay
`INITIAL_RECONNECT_DELAY * Math.pow(2, reconnectAttempts - 1)` milliseconds,
which removes the current channel and calls setup again; otherwise it stops.
On `SUBSCRIBED` it resets `reconnectAttempts` to 0 — so a `CHANNEL_ERROR`
arriving after an established subscription dropped runs with
`reconnectAttempts = 0` and `Math.pow(2, -1) = 0.5` halves the base delay
(500 ms).  The cleanup function clears the (one) tracked reconnect timer,
the (one) tracked interval handle and the (one) tracked channel.

To keep the delay arithmetic exact over `Nat`, delays in this model are
measured in HALF-milliseconds: the code's
`1000 * Math.pow(2, attempts - 1)` ms equals `1000 * 2 ^ attempts`
half-milliseconds for every attempt count ≥ 0, including the fractional
`attempts = 0` case. -/

/-- `INITIAL_RECONNECT_DELAY` of part_010. -/
def INITIAL_RECONNECT_DELAY : Nat := 1000

/-- `MAX_RECONNECT_ATTEMPTS` of part_010. -/
def MAX_RECONNECT_ATTEMPTS : Nat := 5

/-- Live handles and counters of one watcher effect instance. -/
structure WatcherState where
  /-- `reconnectAttempts`. -/
  attempts : Nat
  /-- Periodic-validation intervals created and not yet cleared. -/
  liveIntervals : Nat
  /-- Channel subscriptions created and not yet removed. -/
  liveChannels : Nat
  /-- Pending reconnect timers. -/
  liveTimers : Nat
deriving Repr, DecidableEq

/-- The fresh state of the watcher effect. -/
def watcherInit : WatcherState := ⟨0, 0, 0, 0⟩

/-- One call of `setupRealTimeSubscription`: increments `reconnectAttempts`,
opens a channel, and creates a new periodic-validation interval (without
clearing any previous one — the variable is simply overwritten). -/
def setupCall (s : WatcherState) : WatcherState :=
  { s with attempts := s.attempts + 1,
           liveChannels := s.liveChannels + 1,
           liveIntervals := s.liveIntervals + 1 }

/-- The `SUBSCRIBED` branch of the subscribe callback: reset the attempt
counter. -/
def onSubscribed (s : WatcherState) : WatcherState :=
  { s with attempts := 0 }

/-- The reconnect delay the code computes for a `CHANNEL_ERROR` at a given
`reconnectAttempts`, in half-milliseconds:
`INITIAL_RECONNECT_DELAY * Math.pow(2, attempts - 1)` milliseconds is
exactly `INITIAL_RECONNECT_DELAY * 2 ^ attempts` half-milliseconds — also at
`attempts = 0`, where `Math.pow(2, -1) = 0.5` makes the code halve the base
delay. -/
def reconnectDelayHalfMs (attempts : Nat) : Nat :=
  INITIAL_RECONNECT_DELAY * 2 ^ attempts

/-- The `CHANNEL_ERROR` branch: when `attempts < MAX_RECONNECT_ATTEMPTS`,
schedule a reconnect timer and report its delay (in half-milliseconds);
otherwise give up (no timer, no delay). -/
def onChannelError (s : WatcherState) : Option Nat × WatcherState :=
  if s.attempts < MAX_RECONNECT_ATTEMPTS then
    (some (reconnectDelayHalfMs s.attempts),
     { s with liveTimers := s.liveTimers + 1 })
  else
    (none, s)

/-- The reconnect timer fires: the timer is consumed, the current channel is
removed, and `setupRealTimeSubscription` runs again. -/
def reconnectFires (s : WatcherState) : WatcherState :=
  setupCall { s with liveTimers := s.liveTimers - 1, liveChannels := s.liveChannels - 1 }

/-- The effect cleanup (part_010 lines 574-600): clear the tracked reconnect
timer, the tracked interval handle, and the tracked channel — one of each at
most, because each is a single variable holding only the latest handle. -/
def watcherCleanup (s : WatcherState) : WatcherState :=
  { s with liveTimers := s.liveTimers - 1,
           liveIntervals := s.liveIntervals - 1,
           liveChannels := s.liveChannels - 1 }

/-- A run of the watcher against a transport whose subscribe attempts all
fail: setup, then repeatedly `CHANNEL_ERROR` / reconnect until the attempt
cap stops the retries.  Returns the final state and the list of backoff
delays that were scheduled, in order.  `fuel` bounds the recursion. -/
def failingRun : Nat → WatcherState → List Nat → WatcherState × List Nat
  | 0, s, acc => (s, acc)
  | fuel + 1, s, acc =>
    match onChannelError s with
    | (some d, s1) => failingRun fuel (reconnectFires s1) (acc ++ [d])
    | (none, s1) => (s1, acc)

/-- The whole persistent-failure scenario from a fresh mount: one initial
setup call, then the retry loop.  Here every error sees
`reconnectAttempts ≥ 1`. -/
def persistentFailureRun (fuel : Nat) : WatcherState × List Nat :=
  failingRun fuel (setupCall watcherInit) []

/-- The dropped-connection scenario: the mount's subscription succeeds
(`SUBSCRIBED` resets `reconnectAttempts` to 0), then the transport fails for
good.  The first error of this burst sees `reconnectAttempts = 0`. -/
def droppedConnectionRun (fuel : Nat) : WatcherState × List Nat :=
  failingRun fuel (onSubscribed (setupCall watcherInit)) []

/-! ## Unverified-user guards

`validateUserInDatabase` (src/context/AuthContext.tsx lines 69-95) returns
`{ isValid: true, shouldLogout: false }` before performing any read when the
auth user has no `email_confirmed_at`; the real-time effect
(AuthContext.tsx line 322, part_010 line 336) returns before creating any
subscription or timer unless `user.id` is present and `email_confirmed_at`
is set. -/

/-- Result of `validateUserInDatabase` together with the number of record
store reads the call performed. -/
structure DbValidation where
  isValid : Bool
  shouldLogout : Bool
  reads : Nat
deriving Repr, DecidableEq

/-- `validateUserInDatabase(supabaseUser)`: unverified users are not
validated at all; otherwise one `getUserById` read happens and a thrown
read, a missing record, or an inactive record all demand logout. -/
def validateUserInDatabase (emailConfirmed : Bool)
    (read : Option (Option UserRecord)) : DbValidation :=
  if !emailConfirmed then ⟨true, false, 0⟩
  else
    match read with
    | none => ⟨false, true, 1⟩
    | some none => ⟨false, true, 1⟩
    | some (some u) => if !u.is_active then ⟨false, true, 1⟩ else ⟨true, false, 1⟩

/-- The guard of the real-time effect: the revocation watcher (subscription
and periodic timer) is set up only when a user id is present and the email is
confirmed. -/
def watcherStarts (userId : Option Nat) (emailConfirmed : Bool) : Bool :=
  userId.isSome && emailConfirmed

/-- The watcher resources that exist for a session, given the guard: nothing
is ever created when the guard refuses. -/
def watcherResources (userId : Option Nat) (emailConfirmed : Bool) : WatcherState :=
  if watcherStarts userId emailConfirmed then setupCall watcherInit else watcherInit

/-! ## Helper lemmas -/

theorem markOne_token (id now : Nat) (r : PasswordReset) : (markOne id now r).token = r.token := by
  unfold markOne
  split <;> rfl

theorem findByToken_markTokenUsed (store : List PasswordReset) (id now : Nat) (t : String) :
    findByToken (markTokenUsed store id now) t = (findByToken store t).map (markOne id now) := by
  unfold findByToken markTokenUsed
  induction store with
  | nil => rfl
  | cons r rs ih =>
    simp only [List.map_cons, List.filter_cons, markOne_token]
    by_cases h : r.token = t
    · rw [if_pos (by simp [h]), if_pos (by simp [h])]
      rfl
    · rw [if_neg (by simp [h]), if_neg (by simp [h])]
      exact ih

theorem resetPassword_not_found {store : List PasswordReset} {token : String}
    (h : findByToken store token = none) (pw typ : String) (now : Nat) (idpOk : Bool) :
    resetPassword store token pw typ now idpOk = ⟨.err .INVALID_TOKEN, store, []⟩ := by
  unfold resetPassword
  rw [h]

theorem resetPassword_used {store : List PasswordReset} {token : String} {r : PasswordReset}
    (h : findByToken store token = some r) (hu : r.used_at.isSome = true)
    (pw typ : String) (now : Nat) (idpOk : Bool) :
    resetPassword store token pw typ now idpOk = ⟨.err .TOKEN_USED, store, []⟩ := by
  unfold resetPassword
  rw [h]
  simp [hu]

theorem resetPassword_expired {store : List PasswordReset} {token : String} {r : PasswordReset}
    (h : findByToken store token = some r) (hu : r.used_at = none) {now : Nat}
    (he : r.expires_at < now) (pw typ : String) (idpOk : Bool) :
    resetPassword store token pw typ now idpOk = ⟨.err .TOKEN_EXPIRED, store, []⟩ := by
  unfold resetPassword
  rw [h]
  simp [hu, he]

theorem resetPassword_bad_type {store : List PasswordReset} {token : String} {r : PasswordReset}
    (h : findByToken store token = some r) (hu : r.used_at = none) {now : Nat}
    (he : ¬ r.expires_at < now) {typ : String} (ht : typ ≠ "user") (pw : String) (idpOk : Bool) :
    resetPassword store token pw typ now idpOk = ⟨.err .UNSUPPORTED_TYPE, store, []⟩ := by
  unfold resetPassword
  rw [h]
  simp [hu, he, ht]

theorem resetPassword_idp_fail {store : List PasswordReset} {token : String} {r : PasswordReset}
    (h : findByToken store token = some r) (hu : r.used_at = none) {now : Nat}
    (he : ¬ r.expires_at < now) (pw : String) :
    resetPassword store token pw "user" now false
      = ⟨.err .UPDATE_ERROR, store, [.updatePassword r.user_id pw]⟩ := by
  unfold resetPassword
  rw [h]
  simp [hu, he]

theorem resetPassword_success {store : List PasswordReset} {token : String} {r : PasswordReset}
    (h : findByToken store token = some r) (hu : r.used_at = none) {now : Nat}
    (he : ¬ r.expires_at < now) (pw : String) :
    resetPassword store token pw "user" now true
      = ⟨.ok, markTokenUsed store r.id now,
          [.updatePassword r.user_id pw, .markUsed r.id now]⟩ := by
  unfold resetPassword
  rw [h]
  simp [hu, he]

theorem invokeLogoutN_eq (n : Nat) (reason path : String) (s : ClientUI) :
    invokeLogoutN n reason path s
      = { s with toasts := s.toasts ++ List.replicate n reason,
                 pendingNavs := s.pendingNavs ++ List.replicate n path } := by
  induction n generalizing s with
  | zero => simp [invokeLogoutN]
  | succ n ih =>
    simp [invokeLogoutN, handleUserLogout, ih, List.replicate_succ]

theorem getLast?_replicate_succ (n : Nat) (p : String) :
    (List.replicate (n + 1) p).getLast? = some p := by
  induction n with
  | zero => rfl
  | succ n ih =>
    rw [List.replicate_succ, List.replicate_succ, List.getLast?_cons_cons,
        ← List.replicate_succ]
    exact ih

/-- Characterisation of the caller-visible result of `resetPassword` by the
token row and the run parameters. -/
theorem resetPassword_result_eq (store : List PasswordReset) (token pw typ : String)
    (now : Nat) (idpOk : Bool) :
    (resetPassword store token pw typ now idpOk).result
      = match findByToken store token with
        | none => .err .INVALID_TOKEN
        | some r =>
          if r.used_at.isSome then .err .TOKEN_USED
          else if r.expires_at < now then .err .TOKEN_EXPIRED
          else if typ ≠ "user" then .err .UNSUPPORTED_TYPE
          else if !idpOk then .err .UPDATE_ERROR
          else .ok := by
  unfold resetPassword
  cases findByToken store token with
  | none => rfl
  | some r =>
    by_cases hu : r.used_at.isSome <;> by_cases he : r.expires_at < now <;>
      by_cases ht : typ = "user" <;> cases idpOk <;> simp [hu, he, ht]

/-! ## Claims -/

/-- C1: the claim says every `requestReset` call with an email for which no
user record is found returns the same generic success response as for an
existing email.  `AuthService.requestPasswordReset` (part_007) does so, but
the server action `requestPasswordReset` (part_000) throws "User not found"
for an unknown email and therefore answers with its generic *failure*
response, while an existing email (with healthy store and email dispatch)
gets `{ success: true }` — the response shape does depend on account
existence there. -/
theorem c1_requestReset_reveals_account_existence :
    requestPasswordReset_action "user" ⟨false, true, true⟩
        = ⟨false, some genericResetFailure⟩
    ∧ requestPasswordReset_action "user" ⟨true, true, true⟩ = ⟨true, none⟩
    ∧ requestPasswordReset_action "user" ⟨false, true, true⟩
        ≠ requestPasswordReset_action "user" ⟨true, true, true⟩
    ∧ requestPasswordReset_service "user" ⟨false, true, true⟩
        = requestPasswordReset_service "user" ⟨true, true, true⟩ := by
  exact ⟨rfl, rfl, by decide, rfl⟩

/-- C2: the claim says `redeemReset` looks the token record up by exact
string equality, never by partial, prefix, or substring match.  The server
action `resetPassword` (part_000) instead goes through
`BaseService.paginate`'s ILIKE search, which also matches a proper prefix of
a stored token, and matches case-insensitively; `AuthService.resetPassword`
(part_007) uses the exact equality filter. -/
theorem c2_token_lookup_matches_proper_substring :
    tokenRowMatches_action "4f9a7c1b2d3e5a6b" "4f9a7c1b" = true
    ∧ "4f9a7c1b" ≠ "4f9a7c1b2d3e5a6b"
    ∧ tokenRowMatches_action "ABCDEF0123" "abcdef0123" = true
    ∧ tokenRowMatches_service "4f9a7c1b2d3e5a6b" "4f9a7c1b" = false := by
  exact ⟨by decide, by decide, by decide, by decide⟩

/-- C3: for a found, unused, unexpired token of type "user", the
identity-provider password update is performed before `used_at` is set (the
effect trace lists `updatePassword` before `markUsed`), and when the update
fails the store is unchanged — `used_at` stays null, no `markUsed` effect
happens, and the token still redeems on retry. -/
theorem c3_password_update_precedes_token_consumption
    (store : List PasswordReset) (token pw : String) (now : Nat) (r : PasswordReset)
    (hfind : findByToken store token = some r) (hu : r.used_at = none)
    (he : ¬ r.expires_at < now) :
    (resetPassword store token pw "user" now false).store = store
    ∧ (resetPassword store token pw "user" now false).effects
        = [.updatePassword r.user_id pw]
    ∧ findByToken (resetPassword store token pw "user" now false).store token = some r
    ∧ (resetPassword store token pw "user" now true).result = .ok
    ∧ (resetPassword store token pw "user" now true).effects
        = [.updatePassword r.user_id pw, .markUsed r.id now] := by
  rw [resetPassword_idp_fail hfind hu he pw, resetPassword_success hfind hu he pw]
  exact ⟨rfl, rfl, hfind, rfl, rfl⟩

/-- C3 witness: a concrete one-row store with an unused token "tok" expiring
at 100, redeemed at time 50. -/
theorem c3_password_update_precedes_token_consumption_witness :
    findByToken [⟨1, 7, "u@example.com", "tok", 100, none⟩] "tok"
        = some ⟨1, 7, "u@example.com", "tok", 100, none⟩
    ∧ (⟨1, 7, "u@example.com", "tok", 100, none⟩ : PasswordReset).used_at = none
    ∧ ¬ (100 : Nat) < 50
    ∧ (resetPassword [⟨1, 7, "u@example.com", "tok", 100, none⟩]
        "tok" "NewPassw0rd" "user" 50 true).result = .ok := by
  have h1 : findByToken [⟨1, 7, "u@example.com", "tok", 100, none⟩] "tok"
      = some ⟨1, 7, "u@example.com", "tok", 100, none⟩ := by decide
  exact ⟨h1, rfl, by decide,
    (c3_password_update_precedes_token_consumption _ "tok" "NewPassw0rd" 50 _
      h1 rfl (by decide)).2.2.2.1⟩

/-- C4: redemption fails `INVALID_TOKEN` iff no row matches the supplied
string; given a matched row, fails `TOKEN_USED` iff its `used_at` is set;
given a matched unused row, fails `TOKEN_EXPIRED` iff `expires_at < now`;
given a matched, unused, unexpired row, fails `UNSUPPORTED_TYPE` iff the
type is not "user" (the checks apply in that order); and redeeming the same
valid token twice succeeds first and fails second with `TOKEN_USED`. -/
theorem c4_redemption_failure_taxonomy :
    (∀ (store : List PasswordReset) (token pw typ : String) (now : Nat) (idpOk : Bool),
       ((resetPassword store token pw typ now idpOk).result = .err .INVALID_TOKEN
         ↔ findByToken store token = none))
    ∧ (∀ (store : List PasswordReset) (token pw typ : String) (now : Nat) (idpOk : Bool)
         (r : PasswordReset), findByToken store token = some r →
       ((resetPassword store token pw typ now idpOk).result = .err .TOKEN_USED
         ↔ r.used_at.isSome = true))
    ∧ (∀ (store : List PasswordReset) (token pw typ : String) (now : Nat) (idpOk : Bool)
         (r : PasswordReset), findByToken store token = some r → r.used_at = none →
       ((resetPassword store token pw typ now idpOk).result = .err .TOKEN_EXPIRED
         ↔ r.expires_at < now))
    ∧ (∀ (store : List PasswordReset) (token pw typ : String) (now : Nat) (idpOk : Bool)
         (r : PasswordReset), findByToken store token = some r → r.used_at = none →
         ¬ r.expires_at < now →
       ((resetPassword store token pw typ now idpOk).result = .err .UNSUPPORTED_TYPE
         ↔ typ ≠ "user"))
    ∧ (∀ (store : List PasswordReset) (token pw pw2 : String) (now now2 : Nat)
         (r : PasswordReset), findByToken store token = some r → r.used_at = none →
         ¬ r.expires_at < now →
       (resetPassword store token pw "user" now true).result = .ok
       ∧ (resetPassword (resetPassword store token pw "user" now true).store
            token pw2 "user" now2 true).result = .err .TOKEN_USED) := by
  refine ⟨?_, ?_, ?_, ?_, ?_⟩
  · intro store token pw typ now idpOk
    rw [resetPassword_result_eq]
    cases hfind : findByToken store token with
    | none => simp
    | some r =>
      by_cases hu : r.used_at.isSome <;> by_cases he : r.expires_at < now <;>
        by_cases ht : typ = "user" <;> cases idpOk <;> simp [hu, he, ht]
  · intro store token pw typ now idpOk r hfind
    rw [resetPassword_result_eq, hfind]
    by_cases hu : r.used_at.isSome <;> by_cases he : r.expires_at < now <;>
      by_cases ht : typ = "user" <;> cases idpOk <;> simp [hu, he, ht]
  · intro store token pw typ now idpOk r hfind hu
    rw [resetPassword_result_eq, hfind]
    by_cases he : r.expires_at < now <;> by_cases ht : typ = "user" <;>
      cases idpOk <;> simp [hu, he, ht]
  · intro store token pw typ now idpOk r hfind hu he
    rw [resetPassword_result_eq, hfind]
    by_cases ht : typ = "user" <;> cases idpOk <;> simp [hu, he, ht]
  · intro store token pw pw2 now now2 r hfind hu he
    have h1 := resetPassword_success hfind hu he pw
    refine ⟨by rw [h1], ?_⟩
    rw [h1]
    have h2 : findByToken (markTokenUsed store r.id now) token
        = some (markOne r.id now r) := by
      rw [findByToken_markTokenUsed, hfind]
      rfl
    have h3 : (markOne r.id now r).used_at.isSome = true := by
      unfold markOne
      simp
    rw [resetPassword_used h2 h3]

/-- C4 witness: the scenario of the spec — token "T1" in a one-row store,
redeemed at time 50 (before expiry 100), then redeemed again at time 60. -/
theorem c4_redemption_failure_taxonomy_witness :
    findByToken [⟨1, 7, "u@example.com", "T1", 100, none⟩] "T1"
        = some ⟨1, 7, "u@example.com", "T1", 100, none⟩
    ∧ (resetPassword [⟨1, 7, "u@example.com", "T1", 100, none⟩]
        "T1" "NewPassw0rd" "user" 50 true).result = .ok
    ∧ (resetPassword
        (resetPassword [⟨1, 7, "u@example.com", "T1", 100, none⟩]
          "T1" "NewPassw0rd" "user" 50 true).store
        "T1" "pw2" "user" 60 true).result = .err .TOKEN_USED := by
  have h1 : findByToken [⟨1, 7, "u@example.com", "T1", 100, none⟩] "T1"
      = some ⟨1, 7, "u@example.com", "T1", 100, none⟩ := by decide
  have h := c4_redemption_failure_taxonomy.2.2.2.2 _ "T1" "NewPassw0rd" "pw2" 50 60 _
    h1 rfl (by decide)
  exact ⟨h1, h.1, h.2⟩

/-- C5 counterexample: the claim says every failed read yields invalid with
the single reason "unable to verify session".  In the code two different
failed reads yield two different reasons — a thrown read gives "Unable to
verify your session" while a failed service response gives "Session
validation failed: service error" — so no single reason covers all failed
reads, and neither string is the claimed one. -/
theorem c5_failed_read_reason_counterexample :
    validateUserSession .thrown ≠ validateUserSession (.svc false none)
    ∧ validateUserSession .thrown
        = ⟨false, some "Unable to verify your session", none⟩
    ∧ validateUserSession (.svc false none)
        = ⟨false, some "Session validation failed: service error", none⟩
    ∧ (validateUserSession (.svc false none)).reason ≠ some "unable to verify session"
    ∧ (validateUserSession .thrown).reason ≠ some "unable to verify session" := by
  exact ⟨by decide, rfl, rfl, by decide, by decide⟩

/-- C5 (amended): the validator classifies the single read's outcome in
order — a thrown read is invalid with reason "Unable to verify your
session", a failed service response is invalid with reason "Session
validation failed: service error" (both fail-closed), a missing record is
invalid with reason "Your account no longer exists" ("User account no longer
exists" in the legacy shape), an inactive record is invalid with reason
"Your account has been deactivated", and otherwise the verdict is valid and
carries the record.  The function only classifies; it mutates nothing. -/
theorem c5_validateUserSession_classification :
    validateUserSession .thrown = ⟨false, some "Unable to verify your session", none⟩
    ∧ (∀ d, validateUserSession (.svc false d)
          = ⟨false, some "Session validation failed: service error", none⟩)
    ∧ validateUserSession (.svc true none)
        = ⟨false, some "Your account no longer exists", none⟩
    ∧ (∀ u, validateUserSession (.svc true (some u))
          = if u.is_active then ⟨true, none, some u⟩
            else ⟨false, some "Your account has been deactivated", none⟩)
    ∧ validateUserSession (.legacy none)
        = ⟨false, some "User account no longer exists", none⟩
    ∧ (∀ u, validateUserSession (.legacy (some u))
          = if u.is_active then ⟨true, none, some u⟩
            else ⟨false, some "Your account has been deactivated", none⟩) := by
  refine ⟨rfl, fun d => rfl, rfl, fun u => ?_, rfl, fun u => ?_⟩ <;>
    cases hu : u.is_active <;> simp [validateUserSession, hu]

/-- C6: a delete notification forces logout with the deleted reason; an
update notification whose new record has `is_active` false forces logout
with the deactivated reason; every other update notification only refreshes
the locally held profile with the new record (a `profileRefresh`, never a
`forcedLogout`); an insert does nothing. -/
theorem c6_change_notification_classification :
    onUserTableChange .delete = .forcedLogout "Your account has been deleted"
    ∧ (∀ u, onUserTableChange (.update u)
          = if u.is_active then .profileRefresh u
            else .forcedLogout "Your account has been deactivated")
    ∧ onUserTableChange .insert = .noop := by
  refine ⟨rfl, fun u => ?_, rfl⟩
  cases hu : u.is_active <;> simp [onUserTableChange, hu]

/-- C7 counterexample: the claim says any number of invocations of the
forced-logout procedure triggers logout navigation exactly once.
`handleUserLogout` has no guard: two invocations schedule two redirect
timers (and show two toasts). -/
theorem c7_double_invocation_schedules_two_navigations :
    (invokeLogoutN 2 "Your account has been deleted" "/auth/login"
        ⟨[], [], none⟩).pendingNavs.length = 2
    ∧ (invokeLogoutN 2 "Your account has been deleted" "/auth/login"
        ⟨[], [], none⟩).toasts.length = 2 := by
  exact ⟨rfl, rfl⟩

/-- C7 (amended): repeated invocation is safe but not exactly-once — `n`
invocations schedule `n` navigations (one per invocation), all to the same
login path, so once the timers fire the location is the login entry point,
the same final destination as for a single invocation, and nothing
crashes. -/
theorem c7_repeated_logout_effectively_idempotent (n : Nat) (reason path : String)
    (h : 1 ≤ n) :
    (invokeLogoutN n reason path ⟨[], [], none⟩).pendingNavs.length = n
    ∧ (fireTimers (invokeLogoutN n reason path ⟨[], [], none⟩)).location = some path
    ∧ (fireTimers (invokeLogoutN n reason path ⟨[], [], none⟩)).location
        = (fireTimers (invokeLogoutN 1 reason path ⟨[], [], none⟩)).location
    ∧ (fireTimers (invokeLogoutN n reason path ⟨[], [], none⟩)).pendingNavs = [] := by
  obtain ⟨m, rfl⟩ : ∃ m, n = m + 1 := ⟨n - 1, (Nat.succ_pred_eq_of_pos h).symm⟩
  refine ⟨?_, ?_, ?_, ?_⟩
  · simp [invokeLogoutN_eq]
  · simp [invokeLogoutN_eq, fireTimers, getLast?_replicate_succ]
  · simp [invokeLogoutN_eq, fireTimers, getLast?_replicate_succ]
  · simp [invokeLogoutN_eq, fireTimers]

/-- C7 witness: three invocations still land on the login page. -/
theorem c7_repeated_logout_effectively_idempotent_witness :
    (1 : Nat) ≤ 3
    ∧ (fireTimers (invokeLogoutN 3 "Your account has been deactivated" "/auth/login"
        ⟨[], [], none⟩)).location = some "/auth/login" :=
  ⟨by decide,
   (c7_repeated_logout_effectively_idempotent 3 "Your account has been deactivated"
      "/auth/login" (by decide)).2.1⟩

/-- C8 counterexample: the claim says every retry delay is the base delay
times 2 to the power of the attempt number.  A `CHANNEL_ERROR` arriving
after a successful `SUBSCRIBED` (which resets `reconnectAttempts` to 0)
schedules its retry after `1000 * Math.pow(2, -1)` ms = 500 ms =
`INITIAL_RECONNECT_DELAY` half-milliseconds — strictly below the base delay
(`2 * INITIAL_RECONNECT_DELAY` half-milliseconds), while `base * 2 ^ k` is
at least the base for every attempt number `k`, so no `k` yields this
delay. -/
theorem c8_post_subscribe_error_schedules_half_base_delay :
    onChannelError (onSubscribed (setupCall watcherInit))
        = (some INITIAL_RECONNECT_DELAY,
           { attempts := 0, liveIntervals := 1, liveChannels := 1, liveTimers := 1 })
    ∧ INITIAL_RECONNECT_DELAY < 2 * INITIAL_RECONNECT_DELAY * 2 ^ 0 := by
  exact ⟨by decide, by decide⟩

/-- C8 (amended): the reconnect delay for an error at attempt count `a` is
`base * 2 ^ (a - 1)` (so `base * 2 ^ k` for retry number `k` only in a burst
that starts from a fresh mount, where every error sees `a ≥ 1`; a burst that
starts after an established subscription dropped begins at `a = 0` with half
the base delay and then doubles).  Each burst makes at most
`MAX_RECONNECT_ATTEMPTS = 5` subscribe attempts; after exhausting retries a
further channel error schedules nothing and changes nothing, while at least
one periodic-validation interval keeps running.  All delays below are in
half-milliseconds (`2 * INITIAL_RECONNECT_DELAY` is the 1000 ms base); the
final conjunct shows the dropped-connection burst's first delay is below
every `base * 2 ^ k`, so the original law cannot describe it. -/
theorem c8_reconnect_backoff_policy_amended :
    (persistentFailureRun 10).2
      = [INITIAL_RECONNECT_DELAY * 2 ^ 1, INITIAL_RECONNECT_DELAY * 2 ^ 2,
         INITIAL_RECONNECT_DELAY * 2 ^ 3, INITIAL_RECONNECT_DELAY * 2 ^ 4]
    ∧ (persistentFailureRun 10).1.attempts = MAX_RECONNECT_ATTEMPTS
    ∧ onChannelError (persistentFailureRun 10).1 = (none, (persistentFailureRun 10).1)
    ∧ 1 ≤ (persistentFailureRun 10).1.liveIntervals
    ∧ persistentFailureRun 10 = persistentFailureRun 50
    ∧ (droppedConnectionRun 10).2
      = [INITIAL_RECONNECT_DELAY * 2 ^ 0, INITIAL_RECONNECT_DELAY * 2 ^ 1,
         INITIAL_RECONNECT_DELAY * 2 ^ 2, INITIAL_RECONNECT_DELAY * 2 ^ 3,
         INITIAL_RECONNECT_DELAY * 2 ^ 4]
    ∧ (droppedConnectionRun 10).1.attempts = MAX_RECONNECT_ATTEMPTS
    ∧ onChannelError (droppedConnectionRun 10).1 = (none, (droppedConnectionRun 10).1)
    ∧ 1 ≤ (droppedConnectionRun 10).1.liveIntervals
    ∧ droppedConnectionRun 10 = droppedConnectionRun 50
    ∧ (droppedConnectionRun 10).2.head? = some INITIAL_RECONNECT_DELAY
    ∧ (∀ k : Nat, INITIAL_RECONNECT_DELAY < 2 * INITIAL_RECONNECT_DELAY * 2 ^ k) := by
  refine ⟨by decide, by decide, by decide, by decide, by decide, by decide,
          by decide, by decide, by decide, by decide, by decide, ?_⟩
  intro k
  have h : 1 ≤ 2 ^ k := Nat.one_le_pow k 2 (by decide)
  simp only [INITIAL_RECONNECT_DELAY]
  omega

/-- C9: the claim says teardown leaves zero outstanding timer or
subscription handles.  In part_010, every setup call creates a fresh
periodic-validation interval without clearing the previous one; after one
transport error, one reconnect, and a successful resubscription, two
intervals exist and the cleanup clears only the tracked (latest) one — one
interval handle survives teardown. -/
theorem c9_reconnect_leaks_periodic_interval :
    (watcherCleanup (onSubscribed (reconnectFires
        (onChannelError (setupCall watcherInit)).2))).liveIntervals = 1
    ∧ (watcherCleanup (onSubscribed (reconnectFires
        (onChannelError (setupCall watcherInit)).2))).liveChannels = 0
    ∧ (watcherCleanup (onSubscribed (reconnectFires
        (onChannelError (setupCall watcherInit)).2))).liveTimers = 0
    ∧ ¬ (watcherCleanup (onSubscribed (reconnectFires
        (onChannelError (setupCall watcherInit)).2))).liveIntervals = 0 := by
  exact ⟨by decide, by decide, by decide, by decide⟩

/-- C10: for a user whose email is not confirmed, database validation
returns valid while performing zero reads, the real-time effect guard
refuses to start the watcher, and consequently no watcher resource (channel,
interval, timer) ever exists for such a session — revocation detection can
never force-log-out an unverified user. -/
theorem c10_unverified_user_skips_revocation :
    (∀ read, validateUserInDatabase false read = ⟨true, false, 0⟩)
    ∧ (∀ uid, watcherStarts uid false = false)
    ∧ (∀ uid, watcherResources uid false = watcherInit) := by
  refine ⟨fun read => rfl, fun uid => ?_, fun uid => ?_⟩ <;>
    cases uid <;> rfl

end StarterKit
